import Mathlib

/-!
A shallow embedding of the phase-executor layer of the gravity installer
(`lib/install/phases/app.go`, `lib/install/phases/postsystem.go`), of the
storage health checker (`monitoring` package), of the installer logging hook
(`package install`), and of the string helpers (`package utils`), together with
theorems about their behaviour.

Conventions of the embedding:
- Go errors are values of the inductive `Err`; fallible Go functions return
  `Except Err α`.  `trace.Wrap(err)` and `trace.Wrap(err, msg)` only attach a
  stack trace / context message while preserving the error's identity and
  class, and are modelled as the identity on `Err`.
- External collaborators (the Kubernetes client, the planet agent, the app
  service, the operating system) are modelled as explicit environment records
  whose fields supply the observations the code would make; a stateful closure
  re-invoked across retry attempts is modelled as a function of the attempt
  index.
- The progress reporter and logging calls with no control-flow effect are not
  modelled.
-/

namespace Gravity

/-- Error values (the `trace` error taxonomy used by the code: NotFound,
BadParameter, wrapped system errors, aggregates). -/
inductive Err where
  | notFound : String → Err
  | badParameter : String → Err
  | other : String → Err
  | aggregate : List Err → Err

/-- `trace.IsNotFound`. -/
def Err.isNotFound : Err → Bool
  | .notFound _ => true
  | _ => false

/-- `storage.Server`: a target machine of the plan. -/
structure Server where
  hostname : String
  advertiseIP : String
  role : String
  clusterRole : String
deriving Repr, DecidableEq

/-- `loc.Locator`: an application package reference. -/
structure Locator where
  repository : String
  name : String
  version : String
deriving Repr, DecidableEq

/-- `storage.OSUser`: the service-user descriptor carried in phase data. -/
structure OSUser where
  name : String
  uid : String
  gid : String
deriving Repr, DecidableEq

/-- `systeminfo.User`: the resolved service user. -/
structure User where
  name : String
  uid : Nat
  gid : Nat
deriving Repr, DecidableEq

/-- `storage.PhaseData`: phase-specific parameter payload. -/
structure PhaseData where
  server : Option Server
  package : Option Locator
  serviceUser : Option OSUser
deriving Repr, DecidableEq

/-- `storage.OperationPhase`: one phase of the plan. -/
structure Phase where
  id : String
  data : Option PhaseData
deriving Repr, DecidableEq

/-- `storage.OperationPlan`: the installed plan (only the server list is
consulted by the code under study). -/
structure Plan where
  servers : List Server
deriving Repr, DecidableEq

/-- `fsm.ExecutorParams`: the parameters an executor is constructed from. -/
structure ExecutorParams where
  phase : Phase
  plan : Plan
deriving Repr, DecidableEq

/-- Modelled from the spec: `defaults.RetryInterval` (lib/defaults, not under
src/) — the fixed retry interval in seconds. -/
def RetryInterval : Nat := 5

/-- Modelled from the spec: `defaults.RetryAttempts` (lib/defaults, not under
src/) — the fixed attempt budget for long waits. -/
def RetryAttempts : Nat := 60

/-- Modelled from the spec: `defaults.RetryLessAttempts` (lib/defaults, not
under src/) — a lower attempt budget for short checks. -/
def RetryLessAttempts : Nat := 5

/-- Modelled from the spec: `defaults.LabelRetryAttempts` (lib/defaults, not
under src/) — the attempt budget for node-registration waits. -/
def LabelRetryAttempts : Nat := 60

/-- Recursion core of `utils.Retry`: `i` is the next attempt index, the middle
argument the remaining budget, the last argument the last observed error. -/
def retryAux (fn : Nat → Except Err Unit) : Nat → Nat → Option Err → Except Err Unit
  | _, 0, none => .ok ()
  | _, 0, some e => .error e
  | i, r + 1, _ =>
    match fn i with
    | .ok _ => .ok ()
    | .error e => retryAux fn (i + 1) r (some e)

/-- Modelled from the spec: `utils.Retry` (lib/utils, not under src/).  Per the
spec's retry-policy contract: "the wrapped function is invoked up to the
attempt budget; the first success short-circuits further attempts; exhausting
the budget surfaces the last observed error".  The stateful closure is modelled
as a function of the attempt index; the sleep between attempts has no
observable effect in the model, so `interval` is carried only for call-site
fidelity. -/
def Retry (interval : Nat) (attempts : Nat) (fn : Nat → Except Err Unit) : Except Err Unit :=
  let _ := interval
  retryAux fn 0 attempts none

/-- The message of the master-role precondition failure. -/
def masterErrMsg (target : Server) : String :=
  "server " ++ target.hostname ++ " is not a master"

/-- Modelled from the spec: `fsm.CheckMasterServer` (lib/fsm, not under src/).
Per the spec, "master-only phases require CheckMasterServer — the target
server's role must be master, else the phase is skipped with an error surfaced
as a precondition failure, not a transient fault".  The resolution of the
local/target server within the plan's server list happens inside the missing
code; here it is supplied explicitly as `target`, alongside the `servers`
argument of the call sites. -/
def CheckMasterServer (servers : List Server) (target : Server) : Except Err Unit :=
  let _ := servers
  if target.clusterRole = "master" then .ok ()
  else .error (.badParameter (masterErrMsg target))

/-- The durable state a phase could touch: the persisted plan and the cluster's
objects (RBAC resources, applied user resources, hook effects).  Used to state
frame conditions of the no-op rollbacks via explicit state passing. -/
structure ClusterState where
  plan : Plan
  rbacObjects : List String
  userResources : List String
  hookEffects : List String
deriving Repr, DecidableEq

/-- A Kubernetes node object (only the name is consulted). -/
structure Node where
  name : String
deriving Repr, DecidableEq

/-- Environment of the nodes executor: `kubeutils.GetNode` per server, as a
function of the retry attempt index. -/
structure NodesEnv where
  getNode : Server → Nat → Except Err Node

namespace appExecutor

/-- `appExecutor.PreCheck` (src/lib/install/phases/app.go): checks the
master-server precondition. -/
def PreCheck (p : ExecutorParams) (target : Server) : Except Err Unit :=
  CheckMasterServer p.plan.servers target

/-- `appExecutor.Rollback` (src/lib/install/phases/app.go): the body is
`return nil`; in the state-passing embedding it returns success and leaves the
durable state untouched. -/
def Rollback (s : ClusterState) : Except Err Unit × ClusterState :=
  (.ok (), s)

end appExecutor

namespace waitExecutor

/-- `waitExecutor.PreCheck` (src/lib/install/phases/postsystem.go): checks the
master-server precondition. -/
def PreCheck (p : ExecutorParams) (target : Server) : Except Err Unit :=
  CheckMasterServer p.plan.servers target

/-- `waitExecutor.Rollback` (src/lib/install/phases/postsystem.go): a no-op. -/
def Rollback (p : ExecutorParams) : Except Err Unit :=
  let _ := p
  .ok ()

end waitExecutor

namespace nodesExecutor

/-- `nodesExecutor.waitForNode` (src/lib/install/phases/postsystem.go): retries
`kubeutils.GetNode` for the server under the label-retry budget. -/
def waitForNode (env : NodesEnv) (server : Server) : Except Err Unit :=
  Retry RetryInterval LabelRetryAttempts (fun i =>
    match env.getNode server i with
    | .error e => .error e
    | .ok _ => .ok ())

/-- The loop of `nodesExecutor.PreCheck` over the plan's servers. -/
def waitForAllNodes (env : NodesEnv) : List Server → Except Err Unit
  | [] => .ok ()
  | server :: rest =>
    match waitForNode env server with
    | .error e => .error e
    | .ok _ => waitForAllNodes env rest

/-- `nodesExecutor.PreCheck` (src/lib/install/phases/postsystem.go): checks the
master-server precondition, then waits for every server's Kubernetes node to
register. -/
def PreCheck (p : ExecutorParams) (target : Server) (env : NodesEnv) : Except Err Unit :=
  match CheckMasterServer p.plan.servers target with
  | .error e => .error e
  | .ok _ => waitForAllNodes env p.plan.servers

/-- `nodesExecutor.Rollback` (src/lib/install/phases/postsystem.go): a no-op. -/
def Rollback (p : ExecutorParams) : Except Err Unit :=
  let _ := p
  .ok ()

end nodesExecutor

namespace rbacExecutor

/-- `rbacExecutor.PreCheck` (src/lib/install/phases/postsystem.go): checks the
master-server precondition. -/
def PreCheck (p : ExecutorParams) (target : Server) : Except Err Unit :=
  CheckMasterServer p.plan.servers target

/-- `rbacExecutor.Rollback` (src/lib/install/phases/postsystem.go): the body is
`return nil`; in the state-passing embedding it returns success and leaves the
durable state untouched. -/
def Rollback (s : ClusterState) : Except Err Unit × ClusterState :=
  (.ok (), s)

end rbacExecutor

namespace resourcesExecutor

/-- `resourcesExecutor.PreCheck` (src/lib/install/phases/postsystem.go): checks
the master-server precondition. -/
def PreCheck (p : ExecutorParams) (target : Server) : Except Err Unit :=
  CheckMasterServer p.plan.servers target

/-- `resourcesExecutor.Rollback` (src/lib/install/phases/postsystem.go): the
body is `return nil`; in the state-passing embedding it returns success and
leaves the durable state untouched. -/
def Rollback (s : ClusterState) : Except Err Unit × ClusterState :=
  (.ok (), s)

end resourcesExecutor

/-- Modelled from the spec: the engine's phase dispatch (lib/fsm, not under
src/) runs `PreCheck` before `Execute`, and "failing PreCheck aborts the phase
without mutating cluster state".  The boolean records whether `Execute` was
invoked. -/
def runPhase (pre : Except Err Unit) (exec : Except Err Unit) : Except Err Unit × Bool :=
  match pre with
  | .error e => (.error e, false)
  | .ok _ => (exec, true)

/-- Modelled from the spec: `userFromOSUser` (lib/install/phases, not under
src/) converts the OS service-user descriptor into the resolved service-user
identity, parsing the numeric uid/gid fields. -/
def userFromOSUser (u : OSUser) : Except Err User :=
  match u.uid.toNat?, u.gid.toNat? with
  | some uid, some gid => .ok ⟨u.name, uid, gid⟩
  | _, _ => .error (.badParameter ("invalid user " ++ u.name))

/-- The bound "app" executor built by `NewApp` (collaborator handles — the
operator and the local app service — live in the environment records and are
not stored here). -/
structure AppExecutor where
  params : ExecutorParams
  serviceUser : User
deriving Repr, DecidableEq

/-- `NewApp` (src/lib/install/phases/app.go): app executor construction; fails
with `BadParameter "service user is required"` when the phase data or its
service-user descriptor is missing. -/
def NewApp (p : ExecutorParams) : Except Err AppExecutor :=
  match p.phase.data with
  | none => .error (.badParameter "service user is required")
  | some d =>
    match d.serviceUser with
    | none => .error (.badParameter "service user is required")
    | some su =>
      match userFromOSUser su with
      | .error e => .error e
      | .ok u => .ok ⟨p, u⟩

/-- `schema.HookType`: the app hook kinds exercised by the app phase. -/
inductive HookType where
  | install
  | installed
deriving Repr, DecidableEq

/-- Environment of the app executor: the results of `app.CheckHasAppHook` and
`app.StreamAppHook` (lib/app, not under src/) for each hook kind. -/
structure AppEnv where
  checkHook : HookType → Except Err Unit
  streamHook : HookType → Except Err Unit

/-- `appExecutor.runHooks` (src/lib/install/phases/app.go): for each hook, a
NotFound from the hook check skips that hook; any other check error aborts; a
hook-stream failure aborts. -/
def runHooks (env : AppEnv) : List HookType → Except Err Unit
  | [] => .ok ()
  | hook :: rest =>
    match env.checkHook hook with
    | .error e => if e.isNotFound then runHooks env rest else .error e
    | .ok _ =>
      match env.streamHook hook with
      | .error e => .error e
      | .ok _ => runHooks env rest

namespace appExecutor

/-- `appExecutor.Execute` (src/lib/install/phases/app.go): runs the install and
post-install hooks. -/
def Execute (ex : AppExecutor) (env : AppEnv) : Except Err Unit :=
  let _ := ex
  runHooks env [HookType.install, HookType.installed]

end appExecutor

/-- One engine cycle of the app phase: construction, then PreCheck, then
Execute; the boolean records whether Execute was invoked. -/
def runAppPhase (p : ExecutorParams) (target : Server) (env : AppEnv) :
    Except Err Unit × Bool :=
  match NewApp p with
  | .error e => (.error e, false)
  | .ok ex => runPhase (appExecutor.PreCheck p target) (appExecutor.Execute ex env)

/-- `agentpb.SystemStatus_Type`: the planet agent's overall system status. -/
inductive SystemStatusType where
  | unknown
  | running
  | degraded
deriving Repr, DecidableEq

/-- The planet agent status observed by `status.FromPlanetAgent` (only the
fields the wait phase consults). -/
structure PlanetStatus where
  systemStatus : SystemStatusType
  nodes : List String
deriving Repr, DecidableEq

/-- The closure passed to `utils.Retry` by `waitExecutor.Execute`
(src/lib/install/phases/postsystem.go): queries the planet agent — modelled as
the observation `obs` at the attempt index — and fails the attempt when the
node count does not match the plan's servers or the system status is not
Running.  `status.FromPlanetAgent` (lib/status, not under src/) is the source
of the observations. -/
def waitAttempt (plan : Plan) (obs : Nat → Except Err PlanetStatus) (i : Nat) :
    Except Err Unit :=
  match obs i with
  | .error e => .error e
  | .ok st =>
    if st.nodes.length ≠ plan.servers.length then
      .error (.badParameter "not all planets have come up yet")
    else if st.systemStatus ≠ SystemStatusType.running then
      .error (.badParameter "planet is not running yet")
    else .ok ()

namespace waitExecutor

/-- `waitExecutor.Execute` (src/lib/install/phases/postsystem.go): the
retry-wrapped wait for the planet to start. -/
def Execute (p : ExecutorParams) (obs : Nat → Except Err PlanetStatus) :
    Except Err Unit :=
  Retry RetryInterval RetryAttempts (waitAttempt p.plan obs)

end waitExecutor

/-! The storage checker (`monitoring` package, src/unnamed/part_000). -/

/-- `agentpb.Probe_Type`: status of a structured probe result. -/
inductive ProbeStatus where
  | unknown
  | running
  | failed
deriving Repr, DecidableEq

/-- `agentpb.Probe`: one structured probe result added to the reporter. -/
structure Probe where
  checker : String
  detail : String
  status : ProbeStatus
deriving Repr, DecidableEq

/-- `sigar.FileSystem`: one mount entry (only the fields the checker uses). -/
structure FileSystem where
  dirName : String
  sysTypeName : String
deriving Repr, DecidableEq

/-- `StorageConfig`: the storage checker's configuration. -/
structure StorageConfig where
  path : String
  willBeCreated : Bool
  minBytesPerSecond : Nat
  filesystems : List String
  minFreeBytes : Nat
deriving Repr, DecidableEq

/-- The result of one `os.Stat` call, as the checker's `evalPath` branches on
it. -/
inductive StatResult where
  | statErr : Err → StatResult
  | notExist
  | dirEntry
  | fileEntry

/-- The operating-system observations behind the checker's `osInterface` and
path handling: the mount table, per-path capacity and write-speed probes,
symlink resolution, `os.Stat`, and `filepath.Dir`. -/
structure OSEnv where
  mounts : Except Err (List FileSystem)
  diskCapacity : String → Except Err Nat
  diskSpeed : String → Except Err Nat
  evalSymlinks : String → Except Err String
  stat : String → StatResult
  parentDir : String → String

/-- `storageChecker.Name`: `"io-check(<path>)"`. -/
def checkerName (c : StorageConfig) : String :=
  "io-check(" ++ c.path ++ ")"

/-- `utils.StringInSlice` (package utils, in src): linear membership scan. -/
def StringInSlice (haystack : List String) (needle : String) : Bool :=
  match haystack with
  | [] => false
  | x :: rest => if x = needle then true else StringInSlice rest needle

/-- Modelled from the spec: `humanize.Bytes` of the go-humanize dependency (not
under src/) — a human-readable byte count with a decimal unit suffix. -/
def humanizeBytes (n : Nat) : String :=
  if n < 1000 then Nat.repr n ++ " B"
  else if n < 1000 * 1000 then Nat.repr (n / 1000) ++ " kB"
  else if n < 1000 * 1000 * 1000 then Nat.repr (n / (1000 * 1000)) ++ " MB"
  else if n < 1000 * 1000 * 1000 * 1000 then
    Nat.repr (n / (1000 * 1000 * 1000)) ++ " GB"
  else Nat.repr (n / (1000 * 1000 * 1000 * 1000)) ++ " TB"

/-- `fmt`'s rendering of a `[]string` value (used by the `%v` verb in the
filesystem-check detail). -/
def stringSliceRepr (l : List String) : String :=
  "[" ++ String.intercalate " " l ++ "]"

/-- `strings.HasPrefix s p`: character-level prefix test. -/
def strStartsWith (s p : String) : Bool :=
  p.data.isPrefixOf s.data

/-- The Go comparator `childPathFirst.Less`: a mount sorts before another when
its directory has the other's directory as a prefix (children first). -/
def childPathFirstLess (a b : FileSystem) : Bool :=
  strStartsWith a.dirName b.dirName

/-- Insertion step for sorting mounts children-first. -/
def insertChildFirst (x : FileSystem) : List FileSystem → List FileSystem
  | [] => [x]
  | y :: rest =>
    if childPathFirstLess x y then x :: y :: rest else y :: insertChildFirst x rest

/-- `sort.Sort(childPathFirst(mounts))`: Go's sort-algorithm choice is
unspecified; insertion sort realizes a sorted permutation for the
`childPathFirst` comparator. -/
def sortChildPathFirst : List FileSystem → List FileSystem
  | [] => []
  | x :: rest => insertChildFirst x (sortChildPathFirst rest)

/-- The scan inside `fsFromPath`: the first mount whose directory is a prefix
of the resolved path and whose type is not `rootfs`. -/
def findMount (cleanpath : String) : List FileSystem → Option FileSystem
  | [] => none
  | mnt :: rest =>
    if strStartsWith cleanpath mnt.dirName && !(mnt.sysTypeName == "rootfs") then some mnt
    else findMount cleanpath rest

/-- `fsFromPath` (src/unnamed/part_000): resolves symlinks, reads the mount
table, sorts it children-first, and picks the first matching non-rootfs
mount. -/
def fsFromPath (path : String) (env : OSEnv) : Except Err FileSystem :=
  match env.evalSymlinks path with
  | .error e => .error e
  | .ok cleanpath =>
    match env.mounts with
    | .error e => .error e
    | .ok mounts =>
      match findMount cleanpath (sortChildPathFirst mounts) with
      | some mnt => .ok mnt
      | none => .error (.badParameter ("failed to locate filesystem for " ++ path))

/-- The detail text of a failed filesystem-type probe. -/
def fsTypeDetail (c : StorageConfig) (mnt : FileSystem) : String :=
  "path " ++ (c.path ++ (" requires filesystem " ++ (stringSliceRepr c.filesystems ++
    (", belongs to " ++ (mnt.dirName ++ (" mount point of type " ++ mnt.sysTypeName))))))

/-- `storageChecker.checkFsType` (src/unnamed/part_000): skipped when no
allow-list is configured; otherwise adds exactly one probe — Running when the
mount's filesystem type is in the allow-list, Failed (with a detail naming the
mount point and its type) otherwise. -/
def checkFsType (c : StorageConfig) (env : OSEnv) (path : String)
    (reporter : List Probe) : Except Err Unit × List Probe :=
  if c.filesystems = [] then (.ok (), reporter)
  else
    match fsFromPath path env with
    | .error e => (.error e, reporter)
    | .ok mnt =>
      if StringInSlice c.filesystems mnt.sysTypeName then
        (.ok (), reporter ++ [⟨checkerName c, "", ProbeStatus.running⟩])
      else
        (.ok (), reporter ++ [⟨checkerName c, fsTypeDetail c mnt, ProbeStatus.failed⟩])

/-- The detail text of a failed capacity probe. -/
def capacityDetail (c : StorageConfig) (avail : Nat) : String :=
  humanizeBytes avail ++ (" available space left on " ++ (c.path ++
    (", minimum of " ++ (humanizeBytes c.minFreeBytes ++ " required"))))

/-- `storageChecker.checkCapacity` (src/unnamed/part_000): reads the available
capacity; below the floor it adds one Failed probe and still returns success;
at or above the floor it adds nothing. -/
def checkCapacity (c : StorageConfig) (env : OSEnv) (path : String)
    (reporter : List Probe) : Except Err Unit × List Probe :=
  match env.diskCapacity path with
  | .error e => (.error e, reporter)
  | .ok avail =>
    if avail < c.minFreeBytes then
      (.ok (), reporter ++ [⟨checkerName c, capacityDetail c avail, ProbeStatus.failed⟩])
    else (.ok (), reporter)

/-- The detail text of a failed write-speed probe. -/
def writeSpeedDetail (c : StorageConfig) (bps : Nat) : String :=
  "min write speed " ++ (humanizeBytes c.minBytesPerSecond ++
    ("/sec required, have " ++ humanizeBytes bps))

/-- `storageChecker.checkWriteSpeed` (src/unnamed/part_000): skipped when no
minimum is configured; otherwise runs the timed write probe and adds one Failed
probe when the measured speed is below the minimum, nothing when it meets
it. -/
def checkWriteSpeed (c : StorageConfig) (env : OSEnv) (path : String)
    (reporter : List Probe) : Except Err Unit × List Probe :=
  if c.minBytesPerSecond = 0 then (.ok (), reporter)
  else
    match env.diskSpeed path with
    | .error e => (.error e, reporter)
    | .ok bps =>
      if c.minBytesPerSecond ≤ bps then (.ok (), reporter)
      else
        (.ok (), reporter ++ [⟨checkerName c, writeSpeedDetail c bps, ProbeStatus.failed⟩])

/-- Recursion core of `storageChecker.evalPath`, with fuel bounding the walk up
the parent-directory chain. -/
def evalPathAux (c : StorageConfig) (env : OSEnv) : Nat → String → Except Err String
  | 0, _ => .error (.other "path resolution did not terminate")
  | fuel + 1, p =>
    match env.stat p with
    | .statErr e => .error e
    | .dirEntry => .ok p
    | .fileEntry => .error (.badParameter (p ++ " is not a directory"))
    | .notExist =>
      if !c.willBeCreated then .error (.badParameter (c.path ++ " does not exist"))
      else
        let parent := env.parentDir p
        if parent = p then .error (.badParameter (p ++ " is root and is not a directory"))
        else evalPathAux c env fuel parent

/-- `storageChecker.evalPath` (src/unnamed/part_000): finds the first existing
directory on the parent chain of the configured path (the chain is no longer
than the path itself under `filepath.Dir`). -/
def evalPath (c : StorageConfig) (env : OSEnv) : Except Err String :=
  evalPathAux c env (c.path.length + 1) c.path

/-- `trace.NewAggregate`: success when every argument succeeded, otherwise the
aggregate of the errors. -/
def newAggregate (rs : List (Except Err Unit)) : Except Err Unit :=
  match rs.filterMap (fun r => match r with | .error e => some e | .ok _ => none) with
  | [] => .ok ()
  | errs => .error (.aggregate errs)

/-- `storageChecker.check` (src/unnamed/part_000): evaluates the path, then
runs the three dimension checks in order, aggregating their errors; the
reporter accumulates whatever probes the dimension checks added. -/
def storageCheck (c : StorageConfig) (env : OSEnv) (reporter : List Probe) :
    Except Err Unit × List Probe :=
  match evalPath c env with
  | .error e => (.error e, reporter)
  | .ok path =>
    match checkFsType c env path reporter with
    | (r1, rep1) =>
      match checkCapacity c env path rep1 with
      | (r2, rep2) =>
        match checkWriteSpeed c env path rep2 with
        | (r3, rep3) => (newAggregate [r1, r2, r3], rep3)

/-- Modelled from the spec: `NewProbeFromErr` (satellite dependency, not under
src/) builds a Failed probe carrying the message. -/
def NewProbeFromErr (name msg : String) : Probe :=
  ⟨name, msg, ProbeStatus.failed⟩

/-- `storageChecker.Check` (src/unnamed/part_000): runs the checks and appends
one overall probe — a failure probe when the run returned an error, a Running
probe otherwise. -/
def Check (c : StorageConfig) (env : OSEnv) (reporter : List Probe) : List Probe :=
  match storageCheck c env reporter with
  | (.error _, rep) =>
    rep ++ [NewProbeFromErr (checkerName c) "failed to validate storage requirements"]
  | (.ok _, rep) => rep ++ [⟨checkerName c, "", ProbeStatus.running⟩]

/-! Installer logging (`package install`, src/lib/install/phases/postsystem.go
blob): `InitLogging`, `NewLogHook` and `Hook`. -/

/-- `logrus.Level`, ordered by severity (panic most severe). -/
inductive Level where
  | panic
  | fatal
  | errorLevel
  | warning
  | info
  | debug
deriving Repr, DecidableEq

/-- The numeric logrus level (lower is more severe). -/
def Level.sev : Level → Nat
  | .panic => 0
  | .fatal => 1
  | .errorLevel => 2
  | .warning => 3
  | .info => 4
  | .debug => 5

/-- A log entry. -/
structure Entry where
  level : Level
  message : String
deriving Repr, DecidableEq

/-- `entry.String()`: the formatted entry written by the hook. -/
def entryString (e : Entry) : String :=
  "level=" ++ (Nat.repr e.level.sev ++ (" msg=" ++ e.message))

/-- The observable log sinks: what has been written to the console (stderr /
the logger output) and to the log file. -/
structure LogOutput where
  console : List String
  file : List String
deriving Repr, DecidableEq

/-- The state of the standard logger after configuration: whether its output
was set to the Discard sink, its minimum level, and the path of the installed
file hook (if any). -/
structure LoggerState where
  outputDiscarded : Bool
  level : Level
  hookPath : Option String
deriving Repr, DecidableEq

/-- `Hook.Levels` (src): `log.AllLevels` — the hook subscribes to every
level. -/
def hookLevels : List Level :=
  [Level.panic, Level.fatal, Level.errorLevel, Level.warning, Level.info, Level.debug]

/-- `Hook.Fire` (src): appends the formatted entry to the log file; nothing is
written to the console. -/
def hookFire (out : LogOutput) (e : Entry) : LogOutput :=
  ⟨out.console, out.file ++ [entryString e]⟩

/-- `InitLogging` (src): truncates the log file, installs the file hook on the
standard logger, sets the level to Debug, and sets the logger output to
`ioutil.Discard`. -/
def InitLogging (logFile : String) : LoggerState :=
  ⟨true, Level.debug, some logFile⟩

/-- Modelled from the spec: logrus emission (the logrus dependency is not under
src/) — an entry whose level is enabled at the logger's level is passed to each
installed hook that subscribes to the entry's level, and its formatted text is
written to the logger output unless the output is the Discard sink. -/
def emit (st : LoggerState) (out : LogOutput) (e : Entry) : LogOutput :=
  if e.level.sev ≤ st.level.sev then
    let afterHook :=
      if st.hookPath.isSome && hookLevels.contains e.level then hookFire out e else out
    if st.outputDiscarded then afterHook
    else ⟨afterHook.console ++ [entryString e], afterHook.file⟩
  else out

/-- Substring containment on the underlying character lists. -/
def strContains (s sub : String) : Prop :=
  ∃ pre post : List Char, s.data = pre ++ sub.data ++ post

/-! Concrete instances used to evaluate the definitions on explicit inputs. -/

/-- A worker server (cluster role `node`). -/
def workerServer : Server :=
  ⟨"node-1", "10.0.0.1", "worker", "node"⟩

/-- A master server. -/
def masterServer : Server :=
  ⟨"master-1", "10.0.0.2", "node", "master"⟩

/-- Executor params whose plan has one worker server and whose phase carries no
data. -/
def paramsNoData : ExecutorParams :=
  ⟨⟨"/app", none⟩, ⟨[workerServer]⟩⟩

/-- Executor params whose phase data lacks the service-user descriptor. -/
def paramsNoServiceUser : ExecutorParams :=
  ⟨⟨"/app", some ⟨some masterServer, some ⟨"gravitational.io", "app", "1.0.0"⟩, none⟩⟩,
    ⟨[masterServer]⟩⟩

/-- A nodes environment whose `GetNode` always succeeds. -/
def nodesEnvOk : NodesEnv :=
  ⟨fun _ _ => .ok ⟨"node"⟩⟩

/-- An app-hook environment in which neither hook is defined. -/
def appEnvNoHooks : AppEnv :=
  ⟨fun _ => .error (.notFound "no such hook"), fun _ => .ok ()⟩

/-- An app-hook environment in which every hook exists and runs. -/
def appEnvAllHooks : AppEnv :=
  ⟨fun _ => .ok (), fun _ => .ok ()⟩

/-- A function failing on its first two attempts and succeeding afterwards. -/
def flakyFn (i : Nat) : Except Err Unit :=
  if i < 2 then .error (.other "transient failure") else .ok ()

/-- The errors observed from `flakyFn`. -/
def flakyErrs (i : Nat) : Err :=
  let _ := i
  .other "transient failure"

/-- Executor params for the wait phase: a single-server plan. -/
def waitParams : ExecutorParams :=
  ⟨⟨"/wait", some ⟨some masterServer, none, none⟩⟩, ⟨[masterServer]⟩⟩

/-- Planet observations: every attempt sees one node and a Running system. -/
def planetObsHealthy (i : Nat) : Except Err PlanetStatus :=
  let _ := i
  .ok ⟨SystemStatusType.running, ["10.0.0.2"]⟩

/-- Planet observations: every attempt sees an empty node list. -/
def planetObsShort (i : Nat) : Except Err PlanetStatus :=
  let _ := i
  .ok ⟨SystemStatusType.running, []⟩

/-- The per-attempt error produced by `planetObsShort` against a one-server
plan. -/
def planetShortErrs (i : Nat) : Err :=
  let _ := i
  .badParameter "not all planets have come up yet"

/-- Errors for the healthy observation runs (never produced). -/
def noErrs (i : Nat) : Err :=
  let _ := i
  .other "unused"

/-- A storage configuration exercising all three check dimensions. -/
def storageCfgFull : StorageConfig :=
  ⟨"/data", false, 10, ["ext4"], 100⟩

/-- A healthy storage environment: an ext4 root mount, capacity and write speed
above the configured floors of `storageCfgFull`. -/
def storageEnvHealthy : OSEnv :=
  ⟨.ok [⟨"/", "ext4"⟩], fun _ => .ok 200, fun _ => .ok 50, fun s => .ok s,
    fun _ => StatResult.dirEntry, fun s => s⟩

/-- A storage configuration with a 100 GiB free-capacity floor and no other
dimension configured. -/
def storageCfgCapacity : StorageConfig :=
  ⟨"/var/lib/gravity", false, 0, [], 107374182400⟩

/-- A storage environment with 50 GiB available. -/
def storageEnvLowCapacity : OSEnv :=
  ⟨.ok [], fun _ => .ok 53687091200, fun _ => .ok 0, fun s => .ok s,
    fun _ => StatResult.dirEntry, fun s => s⟩

/-- A storage configuration allowing only ext4. -/
def storageCfgExt4 : StorageConfig :=
  ⟨"/data", false, 0, ["ext4"], 0⟩

/-- A storage environment whose only mount is an xfs root. -/
def storageEnvXfs : OSEnv :=
  ⟨.ok [⟨"/", "xfs"⟩], fun _ => .ok 0, fun _ => .ok 0, fun s => .ok s,
    fun _ => StatResult.dirEntry, fun s => s⟩

/-- The xfs root mount of `storageEnvXfs`. -/
def xfsRootMount : FileSystem :=
  ⟨"/", "xfs"⟩

/-! Theorems. -/

/-- If the retry core returns success then either the budget was zero with no
prior error, or some attempt in the window succeeded. -/
theorem retryAux_ok (fn : Nat → Except Err Unit) :
    ∀ (r i : Nat) (last : Option Err), retryAux fn i r last = .ok () →
      (r = 0 ∧ last = none) ∨ ∃ j, j < r ∧ fn (i + j) = .ok () := by
  intro r
  induction r with
  | zero =>
    intro i last h
    cases last with
    | none => exact Or.inl ⟨rfl, rfl⟩
    | some e => simp [retryAux] at h
  | succ r ih =>
    intro i last h
    unfold retryAux at h
    cases hfn : fn i with
    | ok u =>
      refine Or.inr ⟨0, Nat.succ_pos r, ?_⟩
      cases u
      simpa using hfn
    | error e =>
      rw [hfn] at h
      rcases ih (i + 1) (some e) h with ⟨_, hnone⟩ | ⟨j, hj, hok⟩
      · exact absurd hnone (by simp)
      · refine Or.inr ⟨j + 1, Nat.succ_lt_succ hj, ?_⟩
        have : i + (j + 1) = i + 1 + j := by omega
        rw [this]
        exact hok

/-- If every attempt in the window fails, the retry core returns the error of
the last attempt. -/
theorem retryAux_allFail (fn : Nat → Except Err Unit) (es : Nat → Err) :
    ∀ (r i : Nat) (last : Option Err), 0 < r →
      (∀ j, j < r → fn (i + j) = .error (es (i + j))) →
      retryAux fn i r last = .error (es (i + r - 1)) := by
  intro r
  induction r with
  | zero => intro i last h; exact absurd h (by omega)
  | succ r ih =>
    intro i last _ hfail
    have h0 : fn i = .error (es i) := by simpa using hfail 0 (Nat.succ_pos r)
    unfold retryAux
    simp only [h0]
    cases r with
    | zero =>
      have harith : i + (0 + 1) - 1 = i := by omega
      rw [harith]
      simp only [retryAux]
    | succ r' =>
      have hrec := ih (i + 1) (some (es i)) (by omega)
        (fun j hj => by
          have := hfail (j + 1) (by omega)
          have harith : i + (j + 1) = i + 1 + j := by omega
          rw [harith] at this
          exact this)
      have harith : i + 1 + (r' + 1) - 1 = i + (r' + 1 + 1) - 1 := by omega
      rw [harith] at hrec
      exact hrec

/-- If the first `k` attempts fail and attempt `k` succeeds within the budget,
the retry core returns success. -/
theorem retryAux_firstSuccess (fn : Nat → Except Err Unit) :
    ∀ (r i k : Nat) (last : Option Err), k < r →
      (∀ j, j < k → ∃ e, fn (i + j) = .error e) → fn (i + k) = .ok () →
      retryAux fn i r last = .ok () := by
  intro r
  induction r with
  | zero => intro i k last h; exact absurd h (by omega)
  | succ r ih =>
    intro i k last hk hfail hok
    unfold retryAux
    cases k with
    | zero =>
      simp only [Nat.add_zero] at hok
      rw [hok]
    | succ k' =>
      rcases hfail 0 (Nat.succ_pos k') with ⟨e, he⟩
      simp only [Nat.add_zero] at he
      rw [he]
      refine ih (i + 1) k' (some e) (by omega) ?_ ?_
      · intro j hj
        rcases hfail (j + 1) (by omega) with ⟨e', he'⟩
        refine ⟨e', ?_⟩
        have : i + 1 + j = i + (j + 1) := by omega
        rw [this]
        exact he'
      · have : i + 1 + k' = i + (k' + 1) := by omega
        rw [this]
        exact hok

/-- Success of `Retry` under a positive budget exhibits a successful attempt. -/
theorem Retry_ok (interval attempts : Nat) (fn : Nat → Except Err Unit)
    (hpos : 0 < attempts) (h : Retry interval attempts fn = .ok ()) :
    ∃ j, j < attempts ∧ fn j = .ok () := by
  rcases retryAux_ok fn attempts 0 none h with ⟨hz, _⟩ | ⟨j, hj, hok⟩
  · omega
  · exact ⟨j, hj, by simpa using hok⟩

/-- If all attempts within the budget fail, `Retry` surfaces the last error. -/
theorem Retry_allFail (interval attempts : Nat) (fn : Nat → Except Err Unit) (es : Nat → Err)
    (hpos : 0 < attempts) (hfail : ∀ j, j < attempts → fn j = .error (es j)) :
    Retry interval attempts fn = .error (es (attempts - 1)) := by
  have := retryAux_allFail fn es attempts 0 none hpos (fun j hj => by simpa using hfail j hj)
  simpa using this

/-- The first success short-circuits `Retry`. -/
theorem Retry_firstSuccess (interval attempts k : Nat) (fn : Nat → Except Err Unit)
    (hk : k < attempts) (hfail : ∀ j, j < k → ∃ e, fn j = .error e)
    (hok : fn k = .ok ()) : Retry interval attempts fn = .ok () :=
  retryAux_firstSuccess fn attempts 0 k none hk
    (fun j hj => by simpa using hfail j hj) (by simpa using hok)

/-- C1: For every master-only phase executor (app, wait, nodes, rbac,
resources), a phase whose target server is not a master fails PreCheck with the
CheckMasterServer precondition error (a BadParameter, not a transient fault),
and the engine never invokes Execute for that phase. -/
theorem masterOnly_precheck_blocks_nonmaster
    (p : ExecutorParams) (target : Server) (env : NodesEnv)
    (h : target.clusterRole ≠ "master") :
    appExecutor.PreCheck p target = .error (.badParameter (masterErrMsg target)) ∧
    waitExecutor.PreCheck p target = .error (.badParameter (masterErrMsg target)) ∧
    nodesExecutor.PreCheck p target env = .error (.badParameter (masterErrMsg target)) ∧
    rbacExecutor.PreCheck p target = .error (.badParameter (masterErrMsg target)) ∧
    resourcesExecutor.PreCheck p target = .error (.badParameter (masterErrMsg target)) ∧
    ∀ ex : Except Err Unit,
      (runPhase (appExecutor.PreCheck p target) ex).2 = false ∧
      (runPhase (waitExecutor.PreCheck p target) ex).2 = false ∧
      (runPhase (nodesExecutor.PreCheck p target env) ex).2 = false ∧
      (runPhase (rbacExecutor.PreCheck p target) ex).2 = false ∧
      (runPhase (resourcesExecutor.PreCheck p target) ex).2 = false := by
  have hc : CheckMasterServer p.plan.servers target =
      .error (.badParameter (masterErrMsg target)) := by
    simp [CheckMasterServer, h]
  have hn : nodesExecutor.PreCheck p target env =
      .error (.badParameter (masterErrMsg target)) := by
    simp [nodesExecutor.PreCheck, hc]
  refine ⟨hc, hc, hn, hc, hc, fun ex => ?_⟩
  simp [runPhase, appExecutor.PreCheck, waitExecutor.PreCheck,
    rbacExecutor.PreCheck, resourcesExecutor.PreCheck, hc, hn]

/-- Witness for C1: the worker server is not a master, its PreCheck fails with
the precondition error, and the app phase's Execute is not invoked. -/
theorem masterOnly_precheck_blocks_nonmaster_witness :
    workerServer.clusterRole ≠ "master" ∧
    appExecutor.PreCheck paramsNoData workerServer =
      .error (.badParameter (masterErrMsg workerServer)) ∧
    (runPhase (appExecutor.PreCheck paramsNoData workerServer) (.ok ())).2 = false :=
  ⟨by decide,
   (masterOnly_precheck_blocks_nonmaster paramsNoData workerServer nodesEnvOk (by decide)).1,
   ((masterOnly_precheck_blocks_nonmaster paramsNoData workerServer nodesEnvOk
      (by decide)).2.2.2.2.2 (.ok ())).1⟩

/-- C2: when the phase's service-user descriptor is missing (phase data nil or
its ServiceUser nil), NewApp fails with BadParameter "service user is required"
and no executor is produced, so Execute of the phase is never reached. -/
theorem newApp_requires_service_user (p : ExecutorParams)
    (h : p.phase.data = none ∨ ∃ d, p.phase.data = some d ∧ d.serviceUser = none) :
    NewApp p = .error (.badParameter "service user is required") ∧
    ∀ (target : Server) (env : AppEnv), (runAppPhase p target env).2 = false := by
  have hna : NewApp p = .error (.badParameter "service user is required") := by
    rcases h with h | ⟨d, hd, hsu⟩
    · simp [NewApp, h]
    · simp [NewApp, hd, hsu]
  exact ⟨hna, fun target env => by simp [runAppPhase, hna]⟩

/-- Witness for C2: a phase with no data fails app-executor construction and
its Execute is never invoked. -/
theorem newApp_requires_service_user_witness :
    paramsNoData.phase.data = none ∧
    NewApp paramsNoData = .error (.badParameter "service user is required") ∧
    (runAppPhase paramsNoData masterServer appEnvAllHooks).2 = false ∧
    NewApp paramsNoServiceUser = .error (.badParameter "service user is required") :=
  ⟨rfl,
   (newApp_requires_service_user paramsNoData (Or.inl rfl)).1,
   (newApp_requires_service_user paramsNoData (Or.inl rfl)).2 masterServer appEnvAllHooks,
   (newApp_requires_service_user paramsNoServiceUser (Or.inr ⟨_, rfl, rfl⟩)).1⟩

/-- C3: a function failing exactly `n` times then succeeding returns success
under a budget of `n + 1` attempts, while under a budget of `n` attempts Retry
returns the last error the function produced (not a generic timeout). -/
theorem retry_budget_boundary (interval n : Nat) (fn : Nat → Except Err Unit)
    (es : Nat → Err)
    (hfail : ∀ i, i < n → fn i = .error (es i)) (hsucc : fn n = .ok ()) :
    Retry interval (n + 1) fn = .ok () ∧
    (0 < n → Retry interval n fn = .error (es (n - 1))) := by
  constructor
  · exact Retry_firstSuccess interval (n + 1) n fn (by omega)
      (fun j hj => ⟨es j, hfail j hj⟩) hsucc
  · intro hn
    exact Retry_allFail interval n fn es hn hfail

/-- Witness for C3: a function failing twice then succeeding: success under a
budget of 3 attempts, the last observed error under a budget of 2. -/
theorem retry_budget_boundary_witness :
    (∀ i, i < 2 → flakyFn i = .error (flakyErrs i)) ∧ flakyFn 2 = .ok () ∧
    Retry RetryInterval 3 flakyFn = .ok () ∧
    Retry RetryInterval 2 flakyFn = .error (flakyErrs 1) := by
  have hfail : ∀ i, i < 2 → flakyFn i = .error (flakyErrs i) := by
    intro i hi
    interval_cases i <;> rfl
  exact ⟨hfail, rfl,
    (retry_budget_boundary RetryInterval 2 flakyFn flakyErrs hfail rfl).1,
    (retry_budget_boundary RetryInterval 2 flakyFn flakyErrs hfail rfl).2 (by omega)⟩

/-- C4: the wait phase's Execute is a bounded retry-wrapped wait: it returns
success only if some attempt within the fixed budget observed a planet status
that is Running with a node count equal to the plan's server count; an attempt
observing a different node count fails that attempt; and when every attempt in
the budget fails, Execute returns the last observed error. -/
theorem waitExecute_bounded_convergence (p : ExecutorParams)
    (obs : Nat → Except Err PlanetStatus) (es : Nat → Err) :
    (waitExecutor.Execute p obs = .ok () →
      ∃ i st, i < RetryAttempts ∧ obs i = .ok st ∧
        st.nodes.length = p.plan.servers.length ∧
        st.systemStatus = SystemStatusType.running) ∧
    (∀ i st, obs i = .ok st → st.nodes.length ≠ p.plan.servers.length →
      waitAttempt p.plan obs i = .error (.badParameter "not all planets have come up yet")) ∧
    (∀ i st, obs i = .ok st → st.nodes.length = p.plan.servers.length →
      st.systemStatus ≠ SystemStatusType.running →
      waitAttempt p.plan obs i = .error (.badParameter "planet is not running yet")) ∧
    ((∀ i, i < RetryAttempts → waitAttempt p.plan obs i = .error (es i)) →
      waitExecutor.Execute p obs = .error (es (RetryAttempts - 1))) := by
  refine ⟨?_, ?_, ?_, ?_⟩
  · intro h
    rcases Retry_ok RetryInterval RetryAttempts (waitAttempt p.plan obs)
      (by decide) h with ⟨j, hj, hok⟩
    unfold waitAttempt at hok
    cases hobs : obs j with
    | error e => rw [hobs] at hok; simp at hok
    | ok st =>
      rw [hobs] at hok
      by_cases h1 : st.nodes.length = p.plan.servers.length
      · by_cases h2 : st.systemStatus = SystemStatusType.running
        · exact ⟨j, st, hj, hobs, h1, h2⟩
        · simp [h1, h2] at hok
      · simp [h1] at hok
  · intro i st hobs hne
    unfold waitAttempt
    rw [hobs]
    simp [hne]
  · intro i st hobs heq hnr
    unfold waitAttempt
    rw [hobs]
    simp [heq, hnr]
  · intro hall
    exact Retry_allFail RetryInterval RetryAttempts (waitAttempt p.plan obs) es
      (by decide) hall

/-- Witness for C4: against a one-server plan, healthy observations make
Execute succeed with a converged attempt, and observations that always miss a
node make Execute surface the last node-count error. -/
theorem waitExecute_bounded_convergence_witness :
    (∃ i st, i < RetryAttempts ∧ planetObsHealthy i = .ok st ∧
      st.nodes.length = waitParams.plan.servers.length ∧
      st.systemStatus = SystemStatusType.running) ∧
    waitExecutor.Execute waitParams planetObsShort =
      .error (.badParameter "not all planets have come up yet") :=
  ⟨(waitExecute_bounded_convergence waitParams planetObsHealthy noErrs).1 rfl,
   (waitExecute_bounded_convergence waitParams planetObsShort planetShortErrs).2.2.2
     (fun _ _ => rfl)⟩

/-- C5 as stated is false: on a healthy run the capacity and write-speed
dimensions add no probe at all (they only report on failure) — here a passing
capacity check adds zero probes, not exactly one, and the whole Check run over
all three configured dimensions adds two probes (the filesystem probe and the
overall probe), not one per dimension. -/
theorem storage_probe_per_dimension_cex :
    (checkCapacity storageCfgFull storageEnvHealthy "/data" []).2.length = 0 ∧
    (checkWriteSpeed storageCfgFull storageEnvHealthy "/data" []).2.length = 0 ∧
    (Check storageCfgFull storageEnvHealthy []).length = 2 ∧
    ¬ (checkCapacity storageCfgFull storageEnvHealthy "/data" []).2.length = 1 := by
  refine ⟨rfl, rfl, rfl, by decide⟩

/-- C5 (amended): on an existing directory, the filesystem check (when an
allow-list is configured) adds exactly one probe, pass or fail; the capacity
check adds exactly one failed probe when the available capacity is below the
floor and none otherwise; the write-speed check (when a minimum is configured)
adds exactly one failed probe when the measured speed is below the minimum and
none otherwise. -/
theorem storage_probe_counts (c : StorageConfig) (env : OSEnv) (path : String)
    (reporter : List Probe) (mnt : FileSystem) (avail bps : Nat)
    (hfsne : c.filesystems ≠ [])
    (hmnt : fsFromPath path env = .ok mnt)
    (hcap : env.diskCapacity path = .ok avail)
    (hspd : env.diskSpeed path = .ok bps)
    (hmin : c.minBytesPerSecond ≠ 0) :
    (checkFsType c env path reporter).2.length = reporter.length + 1 ∧
    (checkCapacity c env path reporter).2.length =
      reporter.length + (if avail < c.minFreeBytes then 1 else 0) ∧
    (checkWriteSpeed c env path reporter).2.length =
      reporter.length + (if bps < c.minBytesPerSecond then 1 else 0) := by
  refine ⟨?_, ?_, ?_⟩
  · unfold checkFsType
    rw [if_neg hfsne, hmnt]
    by_cases hins : StringInSlice c.filesystems mnt.sysTypeName
    · simp [hins]
    · simp [hins]
  · unfold checkCapacity
    rw [hcap]
    by_cases hlt : avail < c.minFreeBytes
    · simp [hlt]
    · simp [hlt]
  · unfold checkWriteSpeed
    rw [if_neg hmin, hspd]
    by_cases hge : c.minBytesPerSecond ≤ bps
    · simp [hge, Nat.not_lt.mpr hge]
    · simp [hge, Nat.lt_of_not_le hge]

/-- Witness for C5 (amended): on the healthy environment the filesystem check
adds one probe while capacity and write-speed add none. -/
theorem storage_probe_counts_witness :
    storageCfgFull.filesystems ≠ [] ∧ storageCfgFull.minBytesPerSecond ≠ 0 ∧
    (checkFsType storageCfgFull storageEnvHealthy "/data" []).2.length = 0 + 1 ∧
    (checkCapacity storageCfgFull storageEnvHealthy "/data" []).2.length =
      0 + (if 200 < storageCfgFull.minFreeBytes then 1 else 0) ∧
    (checkWriteSpeed storageCfgFull storageEnvHealthy "/data" []).2.length =
      0 + (if 50 < storageCfgFull.minBytesPerSecond then 1 else 0) := by
  have h := storage_probe_counts storageCfgFull storageEnvHealthy "/data" []
    ⟨"/", "ext4"⟩ 200 50 (by decide) rfl rfl rfl (by decide)
  exact ⟨by decide, by decide, h.1, h.2.1, h.2.2⟩

/-- Exhibiting a decomposition proves substring containment. -/
theorem strContains_intro (s sub : String) (pre post : List Char)
    (h : s.data = pre ++ sub.data ++ post) : strContains s sub :=
  ⟨pre, post, h⟩

/-- C6: when the available capacity is strictly below the configured floor, the
capacity check adds one Failed probe whose detail contains both the available
and the required amounts as human-readable byte counts, and checkCapacity
itself returns no error. -/
theorem checkCapacity_below_floor (c : StorageConfig) (env : OSEnv) (path : String)
    (reporter : List Probe) (avail : Nat)
    (hcap : env.diskCapacity path = .ok avail) (hlt : avail < c.minFreeBytes) :
    checkCapacity c env path reporter =
      (.ok (), reporter ++ [⟨checkerName c, capacityDetail c avail, ProbeStatus.failed⟩]) ∧
    strContains (capacityDetail c avail) (humanizeBytes avail) ∧
    strContains (capacityDetail c avail) (humanizeBytes c.minFreeBytes) := by
  refine ⟨?_, ?_, ?_⟩
  · simp [checkCapacity, hcap, hlt]
  · refine strContains_intro _ _ []
      (" available space left on " ++ (c.path ++ (", minimum of " ++
        (humanizeBytes c.minFreeBytes ++ " required")))).data ?_
    simp [capacityDetail, String.data_append]
  · refine strContains_intro _ _
      ((humanizeBytes avail).data ++ " available space left on ".data ++
        c.path.data ++ ", minimum of ".data) " required".data ?_
    simp [capacityDetail, String.data_append, List.append_assoc]

/-- Witness for C6: 50 GiB available against a 100 GiB floor produces the
failed probe with both humanized amounts in its detail and no error. -/
theorem checkCapacity_below_floor_witness :
    storageEnvLowCapacity.diskCapacity "/var/lib/gravity" = .ok 53687091200 ∧
    53687091200 < storageCfgCapacity.minFreeBytes ∧
    checkCapacity storageCfgCapacity storageEnvLowCapacity "/var/lib/gravity" [] =
      (.ok (), [⟨checkerName storageCfgCapacity,
        capacityDetail storageCfgCapacity 53687091200, ProbeStatus.failed⟩]) ∧
    strContains (capacityDetail storageCfgCapacity 53687091200) (humanizeBytes 53687091200) ∧
    strContains (capacityDetail storageCfgCapacity 53687091200)
      (humanizeBytes storageCfgCapacity.minFreeBytes) := by
  have h := checkCapacity_below_floor storageCfgCapacity storageEnvLowCapacity
    "/var/lib/gravity" [] 53687091200 rfl (by decide)
  exact ⟨rfl, by decide, h.1, h.2.1, h.2.2⟩

/-- C7: with a non-empty filesystem allow-list, a path mounted on a filesystem
type outside the list gets one Failed probe whose detail names the mount point
and its type, while a type inside the list gets one Running probe. -/
theorem checkFsType_allowlist (c : StorageConfig) (env : OSEnv) (path : String)
    (reporter : List Probe) (mnt : FileSystem)
    (hne : c.filesystems ≠ []) (hmnt : fsFromPath path env = .ok mnt) :
    (StringInSlice c.filesystems mnt.sysTypeName = false →
      checkFsType c env path reporter =
        (.ok (), reporter ++ [⟨checkerName c, fsTypeDetail c mnt, ProbeStatus.failed⟩]) ∧
      strContains (fsTypeDetail c mnt) mnt.dirName ∧
      strContains (fsTypeDetail c mnt) mnt.sysTypeName) ∧
    (StringInSlice c.filesystems mnt.sysTypeName = true →
      checkFsType c env path reporter =
        (.ok (), reporter ++ [⟨checkerName c, "", ProbeStatus.running⟩])) := by
  constructor
  · intro hout
    refine ⟨?_, ?_, ?_⟩
    · simp [checkFsType, hne, hmnt, hout]
    · refine strContains_intro _ _
        ("path ".data ++ c.path.data ++ " requires filesystem ".data ++
          (stringSliceRepr c.filesystems).data ++ ", belongs to ".data)
        (" mount point of type " ++ mnt.sysTypeName).data ?_
      simp [fsTypeDetail, String.data_append, List.append_assoc]
    · refine strContains_intro _ _
        ("path ".data ++ c.path.data ++ " requires filesystem ".data ++
          (stringSliceRepr c.filesystems).data ++ ", belongs to ".data ++
          mnt.dirName.data ++ " mount point of type ".data) [] ?_
      simp [fsTypeDetail, String.data_append, List.append_assoc]
  · intro hin
    simp [checkFsType, hne, hmnt, hin]

/-- Witness for C7: allow-list `ext4` with an xfs root mount yields the failed
probe naming the mount, and the same mount against an allow-list containing
xfs would pass — instantiated for the failing side. -/
theorem checkFsType_allowlist_witness :
    storageCfgExt4.filesystems ≠ [] ∧
    fsFromPath "/data" storageEnvXfs = .ok xfsRootMount ∧
    StringInSlice storageCfgExt4.filesystems xfsRootMount.sysTypeName = false ∧
    checkFsType storageCfgExt4 storageEnvXfs "/data" [] =
      (.ok (), [⟨checkerName storageCfgExt4, fsTypeDetail storageCfgExt4 xfsRootMount,
        ProbeStatus.failed⟩]) ∧
    strContains (fsTypeDetail storageCfgExt4 xfsRootMount) xfsRootMount.sysTypeName := by
  have h := (checkFsType_allowlist storageCfgExt4 storageEnvXfs "/data" []
    xfsRootMount (by decide) rfl).1 rfl
  exact ⟨by decide, rfl, rfl, h.1, h.2.2⟩

/-- C8: the Rollback methods of the app, rbac and resources executors are
no-ops: they return success and leave the plan and all cluster state
unchanged. -/
theorem rollbacks_are_noops (s : ClusterState) :
    appExecutor.Rollback s = (.ok (), s) ∧
    rbacExecutor.Rollback s = (.ok (), s) ∧
    resourcesExecutor.Rollback s = (.ok (), s) :=
  ⟨rfl, rfl, rfl⟩

/-- C9 (behaviour of the code at the failing input): after InitLogging the
standard logger's output is the Discard sink and the installed hook writes only
to the log file, so every entry — including warning level and above — reaches
the file while the console receives nothing. -/
theorem initLogging_console_receives_nothing (logFile : String) (out : LogOutput)
    (e : Entry) :
    (emit (InitLogging logFile) out e).console = out.console ∧
    (emit (InitLogging logFile) out e).file = out.file ++ [entryString e] := by
  cases e with
  | mk lvl msg =>
    cases lvl <;>
      simp [emit, InitLogging, hookFire, hookLevels, Level.sev, entryString]

/-- An error returned by the hook loop comes either from a non-NotFound
hook-check failure or from a hook-stream failure. -/
theorem runHooks_error_source (env : AppEnv) : ∀ (hooks : List HookType) (e : Err),
    runHooks env hooks = .error e →
    (e.isNotFound = false ∧ ∃ hook, env.checkHook hook = .error e) ∨
      ∃ hook, env.streamHook hook = .error e := by
  intro hooks
  induction hooks with
  | nil => intro e h; simp [runHooks] at h
  | cons hook rest ih =>
    intro e h
    unfold runHooks at h
    split at h
    · rename_i e1 heq
      split at h
      · exact ih e h
      · rename_i hnf
        cases h
        exact Or.inl ⟨Bool.eq_false_iff.mpr hnf, hook, heq⟩
    · rename_i u heq
      split at h
      · rename_i e1 heq2
        cases h
        exact Or.inr ⟨hook, heq2⟩
      · exact ih e h

/-- C10: if the application defines neither the install nor the post-install
hook (the hook check returns NotFound for both), the app phase's Execute skips
them and returns success; and any error Execute does return originates either
from a non-NotFound hook-check failure or from a hook-run failure. -/
theorem appExecute_skips_missing_hooks (ex : AppExecutor) (env : AppEnv)
    (h1 : ∃ s, env.checkHook HookType.install = .error (.notFound s))
    (h2 : ∃ s, env.checkHook HookType.installed = .error (.notFound s)) :
    appExecutor.Execute ex env = .ok () ∧
    ∀ (env' : AppEnv) (e : Err), appExecutor.Execute ex env' = .error e →
      ((e.isNotFound = false ∧ ∃ hook, env'.checkHook hook = .error e) ∨
        ∃ hook, env'.streamHook hook = .error e) := by
  constructor
  · rcases h1 with ⟨s1, hc1⟩
    rcases h2 with ⟨s2, hc2⟩
    simp [appExecutor.Execute, runHooks, hc1, hc2, Err.isNotFound]
  · intro env' e herr
    exact runHooks_error_source env' [HookType.install, HookType.installed] e herr

/-- Witness for C10: with both hooks absent (NotFound), Execute of the app
phase succeeds. -/
theorem appExecute_skips_missing_hooks_witness :
    appEnvNoHooks.checkHook HookType.install = .error (.notFound "no such hook") ∧
    appEnvNoHooks.checkHook HookType.installed = .error (.notFound "no such hook") ∧
    appExecutor.Execute ⟨paramsNoServiceUser, ⟨"planet", 1000, 1000⟩⟩ appEnvNoHooks = .ok () :=
  ⟨rfl, rfl,
   (appExecute_skips_missing_hooks ⟨paramsNoServiceUser, ⟨"planet", 1000, 1000⟩⟩
     appEnvNoHooks ⟨"no such hook", rfl⟩ ⟨"no such hook", rfl⟩).1⟩

end Gravity
